import Mathlib

/-!
Verification of the credit-ledger core of the pareo-api repository.

The development shallowly embeds the per-user credit ledger:
`CreditRepository.add_credits`, `create_credit_balance`,
`create_credit_transaction` (src/app/repositories/credit_repository.py),
`CreditService.spend_credits`, `get_credit_stats`,
`get_transactions_with_usage` (src/app/services/credit_service.py),
`PaymentService.handle_webhook_event` (src/app/services/payment_service.py)
and `ClerkUserSyncService.sync_new_user`
(src/app/services/clerk_user_sync_service.py).

All monetary quantities are integers in the source (SQL `Integer` columns,
Python `int`), so they are modelled as `Int`.  The database state relevant
to one user is a `LedgerState`: an optional balance row, the list of that
user's transactions (newest first, matching `order_by created_at desc`;
`created_at` is modelled by the monotone insertion counter `next_id`), the
invoice records, and the id counter.  A Python exception that aborts an
operation before any commit is modelled by `Option`/`Except` results that
leave the state unchanged.
-/

namespace Pareo

/-- Embeds `TransactionType` enum from src/app/models/credits.py. -/
inductive TransactionType where
  | purchase
  | usage
  | signup_bonus
deriving DecidableEq, Repr

/-- One row of `credit_balances` (src/app/models/credits.py). -/
structure CreditBalance where
  balance : Int
  lifetime_credits : Int
  tier : String
deriving DecidableEq, Repr

/-- One row of `credit_transactions` (src/app/models/credits.py).
`created_at` is the insertion sequence number (server default `now()` is
monotone across inserts of one user). -/
structure CreditTransaction where
  id : Nat
  amount : Int
  balance_after : Int
  transaction_type : TransactionType
  description : String
  transaction_metadata : List (String × String)
  created_at : Nat
deriving DecidableEq, Repr

/-- One row of `credit_invoices` (src/app/models/credits.py). -/
structure Invoice where
  transaction_id : Nat
  stripe_invoice_id : String
deriving DecidableEq, Repr

/-- The database state restricted to a single user: its (optional) balance
row, its transactions newest first, its invoices, and a fresh-id counter. -/
structure LedgerState where
  balance : Option CreditBalance
  transactions : List CreditTransaction
  invoices : List Invoice
  next_id : Nat
deriving DecidableEq, Repr

/-- The state of a user before any signup processing: no balance row, no
transactions. -/
def emptyState : LedgerState :=
  { balance := none, transactions := [], invoices := [], next_id := 0 }

/-- Embeds `CreditRepository.create_credit_balance`: inserts the balance row
(`tier` takes its column default "basic"). -/
def create_credit_balance (s : LedgerState) (balance lifetime_credits : Int) :
    LedgerState :=
  { s with balance := some { balance := balance, lifetime_credits := lifetime_credits, tier := "basic" } }

/-- Embeds `CreditRepository.create_credit_transaction`: inserts a transaction row
with the given `balance_after`, without touching the balance row. -/
def create_credit_transaction (s : LedgerState) (amount balance_after : Int)
    (transaction_type : TransactionType) (description : String) : LedgerState :=
  { s with
      transactions :=
        { id := s.next_id, amount := amount, balance_after := balance_after,
          transaction_type := transaction_type, description := description,
          transaction_metadata := [], created_at := s.next_id } :: s.transactions,
      next_id := s.next_id + 1 }

/-- Embeds `CreditRepository.add_credits`: in one session, read the balance row
(`none` result models the raised `RepositoryError` when it is missing),
set `balance := balance + amount`,
`lifetime_credits += amount if amount > 0 else 0`, and insert a transaction
with `balance_after = new_balance`.  There is no sign check on the result. -/
def add_credits (s : LedgerState) (amount : Int)
    (transaction_type : TransactionType) (description : String)
    (transaction_metadata : List (String × String)) :
    Option (LedgerState × CreditTransaction) :=
  match s.balance with
  | none => none
  | some b =>
    let new_balance := b.balance + amount
    let t : CreditTransaction :=
      { id := s.next_id, amount := amount, balance_after := new_balance,
        transaction_type := transaction_type, description := description,
        transaction_metadata := transaction_metadata, created_at := s.next_id }
    some
      ({ s with
          balance := some
            { b with
                balance := new_balance,
                lifetime_credits :=
                  b.lifetime_credits + (if amount > 0 then amount else 0) },
          transactions := t :: s.transactions,
          next_id := s.next_id + 1 }, t)

/-- Embeds `CreditRepository.create_invoice`: insert an invoice row keyed by the
transaction id and the external (Stripe) invoice id. -/
def create_invoice (s : LedgerState) (transaction_id : Nat)
    (stripe_invoice_id : String) : LedgerState :=
  { s with invoices := { transaction_id := transaction_id, stripe_invoice_id := stripe_invoice_id } :: s.invoices }

/-- The credit-relevant part of `ClerkUserSyncService.sync_new_user` for a
brand-new user: read the configured signup bonus; only when it is `> 0`
create the balance row (balance and lifetime both the bonus) and record one
`signup_bonus` transaction.  When the bonus is not positive nothing is
created. -/
def sync_new_user (signup_bonus : Int) : LedgerState :=
  if signup_bonus > 0 then
    create_credit_transaction
      (create_credit_balance emptyState signup_bonus signup_bonus)
      signup_bonus signup_bonus TransactionType.signup_bonus
      "Welcome bonus credits"
  else
    emptyState

/-- Error outcomes of the credit service (`CreditOperationError` reasons and
`RepositoryError`), src/app/services/credit_service.py. -/
inductive CreditError where
  | balanceNotFound
  | insufficientCredits
  | repositoryError
deriving DecidableEq, Repr

/-- Embeds `SpendCreditsResponse` schema (src/app/schemas/credits.py). -/
structure SpendCreditsResponse where
  success : Bool
  remaining_credits : Int
  transaction_id : Nat
deriving DecidableEq, Repr

/-- Embeds `CreditService.spend_credits`: read the balance row; if missing fail; if
`balance < amount` raise "Insufficient credits" (no mutation, the state is
returned unchanged); otherwise `add_credits` with `-amount` and type
`usage`.  The pair returns the post-call state alongside the result. -/
def spend_credits (s : LedgerState) (amount : Int) :
    LedgerState × Except CreditError SpendCreditsResponse :=
  match s.balance with
  | none => (s, Except.error CreditError.balanceNotFound)
  | some b =>
    if b.balance < amount then
      (s, Except.error CreditError.insufficientCredits)
    else
      match add_credits s (-amount) TransactionType.usage "Credits spent" [] with
      | none => (s, Except.error CreditError.repositoryError)
      | some (s1, t) =>
        (s1, Except.ok { success := true, remaining_credits := t.balance_after, transaction_id := t.id })

/-- The fields of a Stripe `payment_intent.succeeded` event that
`PaymentService.handle_webhook_event` reads: the payment-intent id (the
external event id), the credit amount from the metadata, and the paid
amount/currency. -/
structure StripePaymentIntent where
  id : String
  credits : Int
  amount : Int
  currency : String
deriving DecidableEq, Repr

/-- The ledger effect of `PaymentService.handle_webhook_event` on a
`payment_intent.succeeded` event: unconditionally `add_credits` with type
`purchase` and the payment-intent id stored in the transaction metadata.
No check for an already-recorded `payment_intent_id` precedes the grant. -/
def handle_webhook_event (s : LedgerState) (ev : StripePaymentIntent) :
    Option (LedgerState × CreditTransaction) :=
  add_credits s ev.credits TransactionType.purchase "Credit purchase via Stripe"
    [("payment_intent_id", ev.id),
     ("amount_paid", toString ev.amount),
     ("currency", ev.currency)]

/-- Outcome of the invoicing phase of the webhook handler. -/
inductive InvoiceOutcome where
  | issued (stripe_invoice_id : String)
  | failed
deriving DecidableEq, Repr

/-- The whole of `PaymentService.handle_webhook_event`: first the credit
grant commits (its own session), then invoicing is attempted.
`stripeInvoice = none` models the external invoicing collaborator raising:
the exception is logged and re-raised, but the committed grant state `s1`
is returned as is — nothing is rolled back.  On success the invoice row is
inserted. -/
def handle_webhook_full (s : LedgerState) (ev : StripePaymentIntent)
    (stripeInvoice : Option String) : Option (LedgerState × InvoiceOutcome) :=
  match handle_webhook_event s ev with
  | none => none
  | some (s1, t) =>
    match stripeInvoice with
    | none => some (s1, InvoiceOutcome.failed)
    | some inv => some (create_invoice s1 t.id inv, InvoiceOutcome.issued inv)

/-- Processing the same webhook event twice in a row (at-least-once
delivery), returning the final state. -/
def processTwice (s : LedgerState) (ev : StripePaymentIntent) :
    Option LedgerState :=
  match handle_webhook_event s ev with
  | none => none
  | some (s1, _) =>
    match handle_webhook_event s1 ev with
    | none => none
    | some (s2, _) => some s2

/-- The "important" filter of `CreditRepository.get_transactions`:
purchases, signup bonuses, and usage debits with `amount < -10`. -/
def importantFilter (t : CreditTransaction) : Bool :=
  t.transaction_type == TransactionType.purchase
    || t.transaction_type == TransactionType.signup_bonus
    || (t.transaction_type == TransactionType.usage && t.amount < -10)

/-- The filtered base query of `CreditRepository.get_transactions` (the
stored list is already newest first). -/
def baseQuery (txns : List CreditTransaction) (type_filter : String) :
    List CreditTransaction :=
  if type_filter == "important" then txns.filter importantFilter else txns

/-- Embeds `CreditRepository.get_transactions`: count the filtered rows, then
return the page `offset = (page - 1) * limit`, `limit` rows, newest first,
together with the total count. -/
def get_transactions (txns : List CreditTransaction) (page limit : Nat)
    (type_filter : String) : List CreditTransaction × Nat :=
  let base := baseQuery txns type_filter
  ((base.drop ((page - 1) * limit)).take limit, base.length)

/-- Seconds per day, for `date_trunc("day", created_at)`. -/
def secondsPerDay : Nat := 86400

/-- Embeds `date_trunc("day", ·)` on the modelled timestamps. -/
def dayOf (created_at : Nat) : Nat := created_at / secondsPerDay

/-- The rows selected by the usage queries: type `usage` and `created_at`
within `[start_date, end_date]` (the upper bound only when given). -/
def usageInRange (start_date : Nat) (end_date : Option Nat)
    (t : CreditTransaction) : Bool :=
  t.transaction_type == TransactionType.usage
    && start_date ≤ t.created_at
    && (match end_date with
        | none => true
        | some e => t.created_at ≤ e)

/-- Embeds `CreditRepository.get_usage_data`: group the in-range usage rows by day
(ascending) and report `abs(sum(amount))` per day. -/
def get_usage_data (txns : List CreditTransaction) (start_date : Nat)
    (end_date : Option Nat) : List (Nat × Int) :=
  let rel := txns.filter (usageInRange start_date end_date)
  let days := ((rel.map (fun t => dayOf t.created_at)).eraseDups).mergeSort (· ≤ ·)
  days.map (fun d =>
    (d, |((rel.filter (fun t => dayOf t.created_at == d)).map
        (fun t => t.amount)).sum|))

/-- Embeds `CreditRepository.get_usage_sum`: `SUM(amount)` over the in-range usage
rows (`NULL`, i.e. no rows, is modelled by the empty match arm), then the
Python `abs(usage_sum) if usage_sum else 0`. -/
def get_usage_sum (txns : List CreditTransaction) (start_date : Nat)
    (end_date : Option Nat) : Int :=
  let rel := txns.filter (usageInRange start_date end_date)
  match rel with
  | [] => 0
  | _ =>
    let total := (rel.map (fun t => t.amount)).sum
    if total = 0 then 0 else |total|

/-- Embeds `CreditRepository.get_total_purchased_credits`: `SUM(amount)` over the
`purchase` rows, with `NULL`/0 collapsed to 0 by `total if total else 0`. -/
def get_total_purchased_credits (txns : List CreditTransaction) : Int :=
  ((txns.filter (fun t => t.transaction_type == TransactionType.purchase)).map
    (fun t => t.amount)).sum

/-- Embeds `CreditStatsResponse` schema (src/app/schemas/credits.py). -/
structure CreditStatsResponse where
  available_credits : Int
  used_this_month : Int
  purchased_total : Int
  lifetime_usage : Int
deriving DecidableEq, Repr

/-- Embeds `CreditService.get_credit_stats`: requires the balance row; monthly
usage from the first of the month; `lifetime_usage` is literally
`total_purchased - credit_balance.balance`. -/
def get_credit_stats (s : LedgerState) (first_of_month : Nat) :
    Option CreditStatsResponse :=
  match s.balance with
  | none => none
  | some b =>
    let total_purchased := get_total_purchased_credits s.transactions
    some
      { available_credits := b.balance,
        used_this_month := get_usage_sum s.transactions first_of_month none,
        purchased_total := total_purchased,
        lifetime_usage := total_purchased - b.balance }

/-- Embeds `CreditTransactionResponse` as built by
`CreditService.get_transactions_with_usage` (the fields this development
reasons about). -/
structure CreditTransactionResponse where
  id : Nat
  date : Nat
  type : TransactionType
  amount : Int
  description : String
deriving DecidableEq, Repr

/-- Embeds `PaginationInfo` schema (src/app/schemas/credits.py). -/
structure PaginationInfo where
  currentPage : Nat
  totalPages : Nat
  totalItems : Nat
  itemsPerPage : Nat
deriving DecidableEq, Repr

/-- Embeds `TransactionsResponse` schema (src/app/schemas/credits.py). -/
structure TransactionsResponse where
  transactions : List CreditTransactionResponse
  usage_data : List (Nat × Int)
  pagination : PaginationInfo
deriving DecidableEq, Repr

/-- Embeds `CreditService.get_transactions_with_usage`: fetch the page, fetch the
last-30-days usage series, and compute
`total_pages = (total_count + limit - 1) // limit`. -/
def get_transactions_with_usage (txns : List CreditTransaction) (now : Nat)
    (page limit : Nat) (type_filter : String) : TransactionsResponse :=
  let fetched := get_transactions txns page limit type_filter
  let total_count := fetched.2
  { transactions :=
      fetched.1.map (fun t =>
        { id := t.id, date := t.created_at, type := t.transaction_type,
          amount := t.amount, description := t.description }),
    usage_data := get_usage_data txns (now - 30 * secondsPerDay) none,
    pagination :=
      { currentPage := page,
        totalPages := (total_count + limit - 1) / limit,
        totalItems := total_count,
        itemsPerPage := limit } }

/-- One committed mutation of a user's ledger state: the signup grant on a
fresh account, a confirmed-purchase webhook, or a successful spend. -/
inductive Step : LedgerState → LedgerState → Prop where
  | signup (bonus : Int) : Step emptyState (sync_new_user bonus)
  | purchase (s : LedgerState) (ev : StripePaymentIntent)
      (s1 : LedgerState) (t : CreditTransaction) :
      handle_webhook_event s ev = some (s1, t) → Step s s1
  | spend (s : LedgerState) (a : Int) (s1 : LedgerState)
      (r : SpendCreditsResponse) :
      spend_credits s a = (s1, Except.ok r) → Step s s1

/-- The ledger states reachable for one user from a fresh account by the
signup-grant, purchase-grant and spend operations. -/
def Reachable (s : LedgerState) : Prop :=
  Relation.ReflTransGen Step emptyState s

/-- The ledger invariant of the spec: whenever the balance row exists, its
`balance` equals the sum of all transaction amounts and equals the
`balance_after` of the most recent (head) transaction. -/
def ledgerConsistent (s : LedgerState) : Prop :=
  ∀ b, s.balance = some b →
    b.balance = (s.transactions.map (fun t => t.amount)).sum ∧
    ∀ t ts, s.transactions = t :: ts → t.balance_after = b.balance

/-- The `lifetime_credits` column, 0 while no balance row exists. -/
def lifetimeOf (s : LedgerState) : Int :=
  match s.balance with
  | none => 0
  | some b => b.lifetime_credits

/-- Number of `purchase` transactions recorded with the given external
payment-intent id in their metadata. -/
def purchaseCountWithRef (s : LedgerState) (ref : String) : Nat :=
  (s.transactions.filter (fun t =>
    t.transaction_type == TransactionType.purchase
      && t.transaction_metadata.any (fun p =>
          p.1 == "payment_intent_id" && p.2 == ref))).length

/-- The `balance` column of the balance row, when it exists. -/
def balanceValue (s : LedgerState) : Option Int :=
  s.balance.map (fun b => b.balance)

/-- Inversion of a successful `add_credits` call: the balance row existed,
the balance moved by exactly `amount`, `lifetime_credits` by the positive
part, and the new transaction was prepended; invoices are untouched. -/
lemma add_credits_inv (s : LedgerState) (a : Int) (ty : TransactionType)
    (d : String) (m : List (String × String)) (s1 : LedgerState)
    (t : CreditTransaction) (h : add_credits s a ty d m = some (s1, t)) :
    ∃ b, s.balance = some b ∧
      s1.balance = some
        { b with
            balance := b.balance + a,
            lifetime_credits := b.lifetime_credits + (if a > 0 then a else 0) } ∧
      s1.transactions = t :: s.transactions ∧
      s1.invoices = s.invoices ∧
      s1.next_id = s.next_id + 1 ∧
      t = { id := s.next_id, amount := a, balance_after := b.balance + a,
            transaction_type := ty, description := d,
            transaction_metadata := m, created_at := s.next_id } := by
  cases hb : s.balance with
  | none => simp [add_credits, hb] at h
  | some b =>
    refine ⟨b, rfl, ?_⟩
    simp only [add_credits, hb] at h
    obtain ⟨h1, h2⟩ := Prod.mk.injEq .. ▸ Option.some.injEq .. ▸ h
    subst h1 h2
    exact ⟨rfl, rfl, rfl, rfl, rfl⟩

/-- A successful `add_credits` call requires an existing balance row. -/
lemma add_credits_success (s : LedgerState) (b : CreditBalance)
    (hb : s.balance = some b) (a : Int) (ty : TransactionType) (d : String)
    (m : List (String × String)) :
    ∃ s1 t, add_credits s a ty d m = some (s1, t) := by
  simp only [add_credits, hb]
  exact ⟨_, _, rfl⟩

/-- A successful spend is exactly a successful `add_credits` of the negated
amount with type `usage`. -/
lemma spend_ok_inv (s : LedgerState) (a : Int) (s1 : LedgerState)
    (r : SpendCreditsResponse)
    (h : spend_credits s a = (s1, Except.ok r)) :
    ∃ t, add_credits s (-a) TransactionType.usage "Credits spent" [] =
      some (s1, t) := by
  unfold spend_credits at h
  split at h
  · simp at h
  · split at h
    · simp at h
    · split at h
      · simp at h
      · rename_i heq
        obtain ⟨h1, -⟩ := Prod.mk.injEq .. ▸ h
        exact ⟨_, h1 ▸ heq⟩

/-- C3: for every user whose balance row exists, a spend request strictly
larger than the current balance fails with `InsufficientCredits` and the
returned state is the input state unchanged: a balance read after the
failed attempt sees the pre-attempt balance and no new transaction. -/
theorem C3_insufficient_credits_rejected (s : LedgerState) (b : CreditBalance)
    (amount : Int) (hb : s.balance = some b) (hlt : b.balance < amount) :
    spend_credits s amount = (s, Except.error CreditError.insufficientCredits) := by
  unfold spend_credits
  rw [hb]
  simp [hlt]

/-- Scenario-C state: a user who signed up with bonus 50 and then spent
30, leaving balance 20. -/
def stateScenC : LedgerState := (spend_credits (sync_new_user 50) 30).1

/-- Witness for C3 at the concrete scenario-C state: spending 100 from
balance 20 is rejected and the state is returned unchanged. -/
theorem C3_witness :
    spend_credits stateScenC 100 =
      (stateScenC, Except.error CreditError.insufficientCredits) :=
  C3_insufficient_credits_rejected stateScenC
    { balance := 20, lifetime_credits := 50, tier := "basic" } 100
    (by decide) (by decide)

/-- Counterexample to C4: the Ledger Store's mutation does not reject a
debit that drives the balance negative.  From a balance row at 5, a debit
of 10 succeeds: the stored balance becomes -5 and a transaction is
appended, where the claim says the mutation is rejected with no append and
an unchanged balance. -/
theorem C4_counterexample :
    ∃ s1 t,
      add_credits
        { balance := some { balance := 5, lifetime_credits := 5, tier := "basic" },
          transactions := [], invoices := [], next_id := 0 }
        (-10) TransactionType.usage "debit" [] = some (s1, t) ∧
      balanceValue s1 = some (-5) ∧
      s1.transactions.length = 1 := by
  exact ⟨_, _, rfl, rfl, rfl⟩

/-- C4 (amended): the Ledger Store's mutation applies any amount whenever
the balance row exists — it appends the transaction and stores the
(possibly negative) new balance; it never rejects a debit by sign. -/
theorem C4_mutation_never_rejects_by_sign (s : LedgerState) (b : CreditBalance)
    (a : Int) (ty : TransactionType) (d : String) (m : List (String × String))
    (hb : s.balance = some b) :
    ∃ s1 t, add_credits s a ty d m = some (s1, t) ∧
      balanceValue s1 = some (b.balance + a) ∧
      s1.transactions = t :: s.transactions ∧
      t.balance_after = b.balance + a := by
  obtain ⟨s1, t, h⟩ := add_credits_success s b hb a ty d m
  obtain ⟨b2, hb2, h1, h2, -, -, h3⟩ := add_credits_inv s a ty d m s1 t h
  rw [hb] at hb2
  cases hb2
  exact ⟨s1, t, h, by simp [balanceValue, h1], h2, by rw [h3]⟩

/-- Witness for the amended C4 at the concrete counterexample input: the
debit of 10 against balance 5 is applied, yielding stored balance -5. -/
theorem C4_witness :
    ∃ s1 t,
      add_credits
        { balance := some { balance := 5, lifetime_credits := 5, tier := "basic" },
          transactions := [], invoices := [], next_id := 0 }
        (-10) TransactionType.usage "debit" [] = some (s1, t) ∧
      balanceValue s1 = some (5 + -10) ∧
      s1.transactions = t :: [] ∧
      t.balance_after = 5 + -10 :=
  C4_mutation_never_rejects_by_sign
    { balance := some { balance := 5, lifetime_credits := 5, tier := "basic" },
      transactions := [], invoices := [], next_id := 0 }
    { balance := 5, lifetime_credits := 5, tier := "basic" }
    (-10) TransactionType.usage "debit" [] rfl

/-- Counterexample to C5: with a configured signup bonus of zero the signup
path creates no balance row at all (the claim says a row with balance 0 is
still created), and a later mutation consequently fails instead of finding
a row to lock. -/
theorem C5_counterexample :
    balanceValue (sync_new_user 0) = none ∧
    (sync_new_user 0).transactions = [] ∧
    add_credits (sync_new_user 0) 5 TransactionType.purchase "p" [] = none := by
  exact ⟨rfl, rfl, rfl⟩

/-- C5 (amended): when the configured signup bonus is not positive the
signup grant creates neither a balance row nor any transaction, and every
later `add_credits` call for that user fails with no effect. -/
theorem C5_zero_bonus_creates_nothing (bonus : Int) (h : bonus ≤ 0) :
    (sync_new_user bonus).balance = none ∧
    (sync_new_user bonus).transactions = [] ∧
    ∀ a ty d m, add_credits (sync_new_user bonus) a ty d m = none := by
  have hb : ¬ bonus > 0 := by omega
  unfold sync_new_user
  rw [if_neg hb]
  exact ⟨rfl, rfl, fun a ty d m => rfl⟩

/-- Witness for the amended C5 at bonus 0. -/
theorem C5_witness :
    (sync_new_user 0).balance = none ∧
    (sync_new_user 0).transactions = [] ∧
    ∀ a ty d m, add_credits (sync_new_user 0) a ty d m = none :=
  C5_zero_bonus_creates_nothing 0 (by decide)

/-- The empty (pre-signup) state is trivially consistent. -/
lemma ledgerConsistent_empty : ledgerConsistent emptyState := by
  intro b hb
  simp [emptyState] at hb

/-- The signup grant produces a consistent state for every configured
bonus. -/
lemma sync_new_user_consistent (bonus : Int) :
    ledgerConsistent (sync_new_user bonus) := by
  unfold sync_new_user
  split
  · intro b hb
    simp only [create_credit_transaction, create_credit_balance, emptyState,
      Option.some.injEq] at hb
    subst hb
    refine ⟨by simp [create_credit_transaction, create_credit_balance, emptyState], ?_⟩
    intro t ts h
    obtain ⟨h1, -⟩ := List.cons.injEq .. ▸ h
    subst h1
    rfl
  · exact ledgerConsistent_empty

/-- A successful `add_credits` call preserves the ledger invariant. -/
lemma add_credits_consistent (s : LedgerState) (a : Int)
    (ty : TransactionType) (d : String) (m : List (String × String))
    (s1 : LedgerState) (t : CreditTransaction)
    (h : add_credits s a ty d m = some (s1, t))
    (hc : ledgerConsistent s) : ledgerConsistent s1 := by
  obtain ⟨b, hb, h1, h2, -, -, h3⟩ := add_credits_inv s a ty d m s1 t h
  obtain ⟨hsum, -⟩ := hc b hb
  intro b1 hb1
  rw [h1, Option.some.injEq] at hb1
  subst hb1
  constructor
  · simp only [h2, List.map_cons, List.sum_cons, h3, hsum]
    ring
  · intro t2 ts h4
    rw [h2] at h4
    obtain ⟨h5, -⟩ := List.cons.injEq .. ▸ h4
    subst h5
    rw [h3]

/-- Every single operation preserves the ledger invariant. -/
lemma step_consistent (s s1 : LedgerState) (h : Step s s1)
    (hc : ledgerConsistent s) : ledgerConsistent s1 := by
  cases h with
  | signup bonus => exact sync_new_user_consistent bonus
  | purchase _ ev _ t hh =>
    exact add_credits_consistent s ev.credits TransactionType.purchase
      "Credit purchase via Stripe" _ s1 t hh hc
  | spend _ a _ r hh =>
    obtain ⟨t, ht⟩ := spend_ok_inv s a s1 r hh
    exact add_credits_consistent s (-a) TransactionType.usage
      "Credits spent" [] s1 t ht hc

/-- C2: in every state reachable by the signup-grant, purchase-grant and
spend operations, the stored balance equals the sum of all transaction
amounts of the user and equals the `balance_after` of the most recent
transaction; each of these operations preserves this invariant. -/
theorem C2_ledger_invariant (s : LedgerState) (h : Reachable s) :
    ledgerConsistent s := by
  unfold Reachable at h
  induction h with
  | refl => exact ledgerConsistent_empty
  | tail _ hstep ih => exact step_consistent _ _ hstep ih

/-- Witness for C2: the state right after a signup with bonus 50 is
reachable and satisfies the invariant. -/
theorem C2_witness : ledgerConsistent (sync_new_user 50) :=
  C2_ledger_invariant (sync_new_user 50)
    (Relation.ReflTransGen.single (Step.signup 50))

/-- A successful `add_credits` call moves `lifetime_credits` by exactly the
positive part of the amount. -/
lemma add_credits_lifetime (s : LedgerState) (a : Int)
    (ty : TransactionType) (d : String) (m : List (String × String))
    (s1 : LedgerState) (t : CreditTransaction)
    (h : add_credits s a ty d m = some (s1, t)) :
    lifetimeOf s1 = lifetimeOf s + max a 0 := by
  obtain ⟨b, hb, h1, -, -, -, -⟩ := add_credits_inv s a ty d m s1 t h
  rw [lifetimeOf, lifetimeOf, hb, h1]
  rcases le_or_lt a 0 with ha | ha
  · rw [if_neg (by omega), max_eq_right ha]
  · rw [if_pos (by omega), max_eq_left ha.le]

/-- C9: `lifetime_credits` never decreases across the signup, purchase and
spend operations, and every `add_credits` mutation with amount `a` changes
it by exactly `max a 0`: grants add their full amount, debits leave it
unchanged. -/
theorem C9_lifetime_credits_monotone (s s1 : LedgerState) (h : Step s s1) :
    lifetimeOf s ≤ lifetimeOf s1 ∧
    ∀ a ty d m t, add_credits s a ty d m = some (s1, t) →
      lifetimeOf s1 = lifetimeOf s + max a 0 := by
  refine ⟨?_, fun a ty d m t hh => add_credits_lifetime s a ty d m s1 t hh⟩
  cases h with
  | signup bonus =>
    unfold sync_new_user
    split
    · rename_i hpos
      simp only [emptyState, lifetimeOf, create_credit_transaction,
        create_credit_balance]
      omega
    · exact le_refl _
  | purchase _ ev _ t hh =>
    have := add_credits_lifetime s ev.credits TransactionType.purchase
      "Credit purchase via Stripe" _ s1 t hh
    have h0 : (0 : Int) ≤ max ev.credits 0 := le_max_right _ _
    omega
  | spend _ a _ r hh =>
    obtain ⟨t, ht⟩ := spend_ok_inv s a s1 r hh
    have := add_credits_lifetime s (-a) TransactionType.usage
      "Credits spent" [] s1 t ht
    have h0 : (0 : Int) ≤ max (-a) 0 := le_max_right _ _
    omega

/-- The confirmed-payment event of Scenario B: payment intent pi_1,
500 credits, 2000 minor units, usd. -/
def evScenB : StripePaymentIntent :=
  { id := "pi_1", credits := 500, amount := 2000, currency := "usd" }

/-- A placeholder transaction used only to totalise `Option.getD`. -/
def dummyTransaction : CreditTransaction :=
  { id := 0, amount := 0, balance_after := 0,
    transaction_type := TransactionType.usage, description := "",
    transaction_metadata := [], created_at := 0 }

/-- The state after the signup grant with the default bonus of 50. -/
def stateSignup50 : LedgerState := sync_new_user 50

/-- The committed result of the first delivery of the Scenario-B event to
the freshly signed-up user. -/
def webhookScenB : LedgerState × CreditTransaction :=
  (handle_webhook_event stateSignup50 evScenB).getD (emptyState, dummyTransaction)

/-- Witness for C9 at a concrete purchase step: granting 500 credits moves
`lifetime_credits` from 50 to exactly 50 + max 500 0. -/
theorem C9_witness :
    lifetimeOf stateSignup50 ≤ lifetimeOf webhookScenB.1 ∧
    lifetimeOf webhookScenB.1 = lifetimeOf stateSignup50 + max 500 0 := by
  have h := C9_lifetime_credits_monotone stateSignup50 webhookScenB.1
    (Step.purchase stateSignup50 evScenB webhookScenB.1 webhookScenB.2 rfl)
  exact ⟨h.1, h.2 500 TransactionType.purchase "Credit purchase via Stripe"
    [("payment_intent_id", "pi_1"), ("amount_paid", toString (2000 : Int)),
     ("currency", "usd")] webhookScenB.2 rfl⟩

/-- C1 is violated by the code: `handle_webhook_event` performs no
deduplication on the payment-intent id, so delivering the same
`payment_intent.succeeded` event twice grants twice.  From the post-signup
state at balance 50, two deliveries of the Scenario-B event leave two
`purchase` transactions carrying `payment_intent_id = pi_1` and balance
1050 — not one transaction and one increase to 550. -/
theorem C1_duplicate_delivery_double_grants :
    ∃ s2, processTwice stateSignup50 evScenB = some s2 ∧
      purchaseCountWithRef s2 "pi_1" = 2 ∧
      balanceValue s2 = some 1050 := by
  exact ⟨_, rfl, rfl, rfl⟩

/-- C6: once the credit grant of a confirmed purchase has committed, a
failure of the external invoicing collaborator does not roll it back: the
full webhook flow returns exactly the committed post-grant state, with the
purchase transaction still recorded and no invoice row added. -/
theorem C6_invoice_failure_preserves_grant (s : LedgerState)
    (ev : StripePaymentIntent) (s1 : LedgerState) (t : CreditTransaction)
    (h : handle_webhook_event s ev = some (s1, t)) :
    handle_webhook_full s ev none = some (s1, InvoiceOutcome.failed) ∧
    t ∈ s1.transactions ∧
    s1.invoices = s.invoices := by
  obtain ⟨b, -, -, h2, h3, -, -⟩ := add_credits_inv s ev.credits
    TransactionType.purchase "Credit purchase via Stripe" _ s1 t h
  refine ⟨?_, ?_, h3⟩
  · unfold handle_webhook_full
    rw [h]
  · rw [h2]
    exact List.mem_cons_self _ _

/-- Witness for C6 at Scenario B: the user at balance 50 is granted 500
credits (balance 550); with the invoicing step failing, the flow still
returns the committed state containing the purchase transaction. -/
theorem C6_witness :
    handle_webhook_full stateSignup50 evScenB none =
      some (webhookScenB.1, InvoiceOutcome.failed) ∧
    webhookScenB.2 ∈ webhookScenB.1.transactions ∧
    webhookScenB.1.invoices = stateSignup50.invoices :=
  C6_invoice_failure_preserves_grant stateSignup50 evScenB
    webhookScenB.1 webhookScenB.2 rfl

/-- C7: when the balance row exists, the stats endpoint reports
`lifetime_usage = total_purchased - current_balance`, where
`total_purchased` is the sum of the amounts of the user's purchase
transactions (0 when there are none) — in particular, after spending
signup-bonus credits with no purchases the figure is `-balance`. -/
theorem C7_lifetime_usage_formula (s : LedgerState) (b : CreditBalance)
    (fm : Nat) (hb : s.balance = some b) :
    ∃ r, get_credit_stats s fm = some r ∧
      r.lifetime_usage =
        ((s.transactions.filter
          (fun t => t.transaction_type == TransactionType.purchase)).map
            (fun t => t.amount)).sum - b.balance ∧
      r.available_credits = b.balance ∧
      r.purchased_total =
        ((s.transactions.filter
          (fun t => t.transaction_type == TransactionType.purchase)).map
            (fun t => t.amount)).sum ∧
      (s.transactions.filter
          (fun t => t.transaction_type == TransactionType.purchase) = [] →
        r.lifetime_usage = 0 - b.balance) := by
  unfold get_credit_stats
  rw [hb]
  refine ⟨_, rfl, rfl, rfl, rfl, ?_⟩
  intro he
  simp [get_total_purchased_credits, he]

/-- Witness for C7 at the Scenario-C state (signup bonus 50, then 30
spent, no purchases): the reported lifetime usage is -20, negative as the
claim anticipates. -/
theorem C7_witness :
    ∃ r, get_credit_stats stateScenC 0 = some r ∧
      r.lifetime_usage =
        ((stateScenC.transactions.filter
          (fun t => t.transaction_type == TransactionType.purchase)).map
            (fun t => t.amount)).sum - 20 ∧
      r.lifetime_usage = -20 := by
  obtain ⟨r, h1, h2, -, -, -⟩ := C7_lifetime_usage_formula stateScenC
    { balance := 20, lifetime_credits := 50, tier := "basic" } 0 rfl
  have h3 : get_credit_stats stateScenC 0 = some
      { available_credits := 20, used_this_month := 30, purchased_total := 0,
        lifetime_usage := -20 } := rfl
  have h4 := Option.some.inj (h1.symm.trans h3)
  exact ⟨r, h1, h2, by rw [h4]⟩

/-- Ceiling of a natural division, as the source's
`(total_count + limit - 1) // limit` idiom. -/
lemma ceil_div_nat (n d : ℕ) (hd : 1 ≤ d) :
    Nat.ceil ((n : ℚ) / (d : ℚ)) = (n + d - 1) / d := by
  have hd0 : (0 : ℚ) < (d : ℚ) := by exact_mod_cast hd
  apply le_antisymm
  · rw [Nat.ceil_le, div_le_iff₀ hd0]
    have key : n ≤ d * ((n + d - 1) / d) := by
      have h1 := Nat.div_add_mod (n + d - 1) d
      have h2 : (n + d - 1) % d < d := Nat.mod_lt _ (by omega)
      omega
    calc (n : ℚ) ≤ ((d * ((n + d - 1) / d) : ℕ) : ℚ) := by exact_mod_cast key
      _ = ((n + d - 1) / d : ℕ) * (d : ℚ) := by push_cast; ring
  · have hc : (n : ℚ) / d ≤ (Nat.ceil ((n : ℚ) / d) : ℚ) := Nat.le_ceil _
    rw [div_le_iff₀ hd0] at hc
    have hn : n ≤ Nat.ceil ((n : ℚ) / (d : ℚ)) * d := by exact_mod_cast hc
    have h2 : n + d - 1 < (Nat.ceil ((n : ℚ) / (d : ℚ)) + 1) * d := by
      have h3 : (Nat.ceil ((n : ℚ) / (d : ℚ)) + 1) * d =
          Nat.ceil ((n : ℚ) / (d : ℚ)) * d + d := by ring
      omega
    have h5 : (n + d - 1) / d < Nat.ceil ((n : ℚ) / (d : ℚ)) + 1 :=
      (Nat.div_lt_iff_lt_mul (show 0 < d by omega)).mpr h2
    omega

/-- C8: for every page ≥ 1 and limit in [1, 100], the transaction-history
response satisfies `totalPages = ceil(totalItems / itemsPerPage)`;
`totalItems` is the full filtered count, independent of the page; and a
page past the last yields an empty transaction list. -/
theorem C8_pagination (txns : List CreditTransaction) (now page limit : Nat)
    (tf : String) (hp : 1 ≤ page) (hl : 1 ≤ limit) (hl100 : limit ≤ 100) :
    (get_transactions_with_usage txns now page limit tf).pagination.totalPages =
      Nat.ceil
        (((get_transactions_with_usage txns now page limit tf).pagination.totalItems : ℚ) /
         ((get_transactions_with_usage txns now page limit tf).pagination.itemsPerPage : ℚ)) ∧
    (get_transactions_with_usage txns now page limit tf).pagination.totalItems =
      (baseQuery txns tf).length ∧
    ((baseQuery txns tf).length ≤ (page - 1) * limit →
      (get_transactions_with_usage txns now page limit tf).transactions = []) := by
  refine ⟨?_, rfl, ?_⟩
  · have h := ceil_div_nat (baseQuery txns tf).length limit hl
    simp only [get_transactions_with_usage, get_transactions]
    exact h.symm
  · intro h
    simp only [get_transactions_with_usage, get_transactions]
    rw [List.drop_eq_nil_of_le (by simpa using h)]
    simp

/-- A single purchase transaction, for the pagination witness. -/
def purchaseTx1 : CreditTransaction :=
  { id := 7, amount := 500, balance_after := 550,
    transaction_type := TransactionType.purchase,
    description := "Credit purchase via Stripe",
    transaction_metadata := [("payment_intent_id", "pi_9")], created_at := 7 }

/-- Witness for C8: one stored transaction, limit 2, page 2 — a page past
the last: `totalPages = ceil(1/2) = 1` and the returned list is empty. -/
theorem C8_witness :
    (get_transactions_with_usage [purchaseTx1] 0 2 2 "all").pagination.totalPages =
      Nat.ceil
        (((get_transactions_with_usage [purchaseTx1] 0 2 2 "all").pagination.totalItems : ℚ) /
         ((get_transactions_with_usage [purchaseTx1] 0 2 2 "all").pagination.itemsPerPage : ℚ)) ∧
    (get_transactions_with_usage [purchaseTx1] 0 2 2 "all").transactions = [] := by
  have h := C8_pagination [purchaseTx1] 0 2 2 "all" (by decide) (by decide)
    (by decide)
  exact ⟨h.1, h.2.2 (by decide)⟩

/-- The usage-sum result is the absolute value of the summed in-range
usage amounts (the SQL `NULL` and the Python falsy-0 cases both land on
0 = |0|). -/
lemma get_usage_sum_abs (txns : List CreditTransaction) (start : Nat)
    (e : Option Nat) :
    get_usage_sum txns start e =
      |((txns.filter (usageInRange start e)).map (fun t => t.amount)).sum| := by
  unfold get_usage_sum
  generalize txns.filter (usageInRange start e) = rel
  cases rel with
  | nil => simp
  | cons a l =>
    change (if ((a :: l).map (fun t => t.amount)).sum = 0 then (0 : Int)
      else |((a :: l).map (fun t => t.amount)).sum|) = _
    split
    · rename_i h0
      rw [h0, abs_zero]
    · rfl

/-- C10: the usage aggregation reports non-negative magnitudes: the usage
sum equals the absolute value of the summed in-range usage amounts (0 when
no usage transaction is in range), and every daily data point equals the
absolute value of that day's summed usage amounts. -/
theorem C10_usage_magnitudes (txns : List CreditTransaction) (start : Nat)
    (e : Option Nat) :
    get_usage_sum txns start e =
      |((txns.filter (usageInRange start e)).map (fun t => t.amount)).sum| ∧
    0 ≤ get_usage_sum txns start e ∧
    (txns.filter (usageInRange start e) = [] →
      get_usage_sum txns start e = 0) ∧
    ∀ p ∈ get_usage_data txns start e,
      p.2 = |(((txns.filter (usageInRange start e)).filter
          (fun t => dayOf t.created_at == p.1)).map (fun t => t.amount)).sum| ∧
      0 ≤ p.2 := by
  refine ⟨get_usage_sum_abs txns start e, ?_, ?_, ?_⟩
  · rw [get_usage_sum_abs]
    exact abs_nonneg _
  · intro h
    simp [get_usage_sum, h]
  · intro p hp
    unfold get_usage_data at hp
    simp only [List.mem_map] at hp
    obtain ⟨d, -, hpd⟩ := hp
    subst hpd
    exact ⟨rfl, abs_nonneg _⟩

/-- Two usage transactions on different days, for the usage witness. -/
def usageTxA : CreditTransaction :=
  { id := 3, amount := -20, balance_after := 30,
    transaction_type := TransactionType.usage, description := "Credits spent",
    transaction_metadata := [], created_at := 100 }

/-- A second usage transaction two days later. -/
def usageTxB : CreditTransaction :=
  { id := 4, amount := -5, balance_after := 25,
    transaction_type := TransactionType.usage, description := "Credits spent",
    transaction_metadata := [], created_at := 200000 }

/-- Witness for C10 on two concrete usage debits of 20 and 5: the usage
sum is the non-negative magnitude 25. -/
theorem C10_witness :
    get_usage_sum [usageTxA, usageTxB] 0 none =
      |(([usageTxA, usageTxB].filter (usageInRange 0 none)).map
        (fun t => t.amount)).sum| ∧
    get_usage_sum [usageTxA, usageTxB] 0 none = 25 :=
  ⟨(C10_usage_magnitudes [usageTxA, usageTxB] 0 none).1, rfl⟩

end Pareo
